import Mathlib

/-!
# Eventzen inventory core — shallow embedding and verification

This file embeds the inventory-reservation core of the Eventzen repository:

* the cart/hold service (`src/server/services/cartHoldService.js`):
  `reserveTickets`, `releaseCartItem`, `clearCart`, the `withRetry`
  optimistic-concurrency loop and `validateQuantity`;
* the booking-finalization transaction
  (`src/server/routes/events.js`, `router.post "/:id/bookings"`).

Modelling conventions:

* JS numbers that the code validates to be integers are `Int`;
  the one fractional amount (`total_amount`, computed with `/ 100`)
  is `ℚ`.
* The Redis hold store is a pair of maps `String → Option _`:
  `holds` for `ticket_hold:{ticketId}` keys and `carts` for
  `cart:{cartId}` keys.  A stored hold-counter string is `HoldVal`:
  either an integer or a value that does not parse (`corrupt`,
  i.e. `parseInt` yields `NaN`).
* TTLs (`EXPIRE`) only govern store-side expiry, which no claim here
  depends on, so `expire` is a no-op on the modelled state.
* `crypto.randomUUID()` and `Date.now()` are oracles, passed in as the
  `freshCartId` / `now` fields of the environment.
* `MULTI/EXEC` with `WATCH`: whether the atomic apply is rejected
  because a watched key changed is decided by the oracle
  `conflictAt : Nat → Bool` (per attempt index); a rejected apply
  leaves the store untouched, an accepted apply performs all queued
  commands.
* The retry closure of `reserveTickets` captures the `workingCart`
  object built once before `withRetry`, and
  `updatedCart.items[ticketIdString] = buildCartItem(...)` mutates that
  shared object in place (after the merged-limit validation, before
  `EXEC`).  A rejected `EXEC` therefore leaves the mutation behind for
  the next attempt.  The loop accordingly threads the pair
  `Store × Option Cart` — the redis state together with the closure's
  mutable `workingCart` — through the attempts.
* Thrown JS errors are `Except` errors; each distinct `throw` site has
  its own constructor.  `err.retryable === false` holds exactly for the
  insufficient-inventory error (the only site assigning
  `retryable: false`).
-/

/-- A raw value stored under a `ticket_hold:` key: an integer string, or
a string that does not parse as an integer (`parseInt` gives `NaN`). -/
inductive HoldVal where
  | int (n : Int)
  | corrupt
deriving DecidableEq, Repr

/-- One line of a cart, as built by `buildCartItem` in
`cartHoldService.js`. -/
structure CartItem where
  ticketId : String
  eventId : String
  name : String
  type : String
  priceCents : Int
  currency : String
  perOrderLimit : Int
  quantity : Int
  holdExpiresAt : Int
deriving DecidableEq, Repr

/-- The cart document serialized under a `cart:` key.  `items` is a JS
object keyed by ticket id; we keep it as an insertion-ordered
association list with unique keys. -/
structure Cart where
  cartId : String
  userId : String
  eventId : String
  currency : String
  items : List (String × CartItem)
deriving DecidableEq, Repr

/-- A ticket SKU document (`src/server/models/Ticket.js`). -/
structure Ticket where
  id : String
  eventId : String
  name : String
  type : String
  priceCents : Int
  currency : String
  qtyTotal : Int
  qtySold : Int
  salesStart : Option Int
  salesEnd : Option Int
  perOrderLimit : Int
  status : String
deriving DecidableEq, Repr

/-- The fields of an event document that the booking route reads. -/
structure Event where
  status : String
deriving DecidableEq, Repr

/-- A booking record as created by the booking route
(`new Booking({...})` in `events.js`). -/
structure Booking where
  event_id : String
  user_id : String
  quantity : Int
  total_amount : ℚ
  booking_status : String
deriving DecidableEq, Repr

/-- The distinct `throw` sites of the cart hold service (and the redis
type error a `DECRBY` on a non-integer value raises). -/
inductive RErr where
  /-- 404 "Ticket not found." -/
  | ticketNotFound
  /-- 400 "Quantity must be a positive integer." -/
  | invalidQuantity
  /-- 400 "You can purchase up to ... tickets for this SKU." -/
  | overPerOrderLimit
  /-- 403 "Cart does not belong to this user." -/
  | cartWrongUser
  /-- 400 "Cart already contains tickets from a different event." -/
  | cartWrongEvent
  /-- 400 "Not enough tickets available for this SKU.", `retryable: false` -/
  | insufficientInventory
  /-- "Cart hold conflict, please retry.", `retryable: true` -/
  | conflict
  /-- error raised by redis itself (`DECRBY` against a non-integer value) -/
  | redisTypeErr
deriving DecidableEq, Repr

/-- `err.retryable === false`: only the insufficient-inventory throw
site assigns `retryable: false` (the conflict site assigns
`retryable: true`; every other thrown error has no `retryable`
property, and `undefined === false` is `false`). -/
def RErr.retryableIsFalse : RErr → Bool
  | .insufficientInventory => true
  | _ => false

/-- The distinct error responses of `POST /api/events/:id/bookings`. -/
inductive BErr where
  /-- 400 "Valid ticket quantity is required." -/
  | invalidQuantity
  /-- 404 "Event not found." -/
  | eventNotFound
  /-- 400 "Event is not available for booking." -/
  | eventNotPublished
  /-- 400 "No tickets available for this event." -/
  | noInventory
  /-- 400 "Ticket sales have not started yet." -/
  | salesNotStarted
  /-- 400 "Ticket sales window has closed." -/
  | salesWindowClosed
  /-- 400 "You can purchase up to ... tickets per order." -/
  | limitExceeded
  /-- 400 "Not enough tickets available." -/
  | insufficientInventory
deriving DecidableEq, Repr

/-- The ephemeral (Redis) store: hold counters and cart documents live
in disjoint key namespaces (`ticket_hold:` vs `cart:`), modelled as two
maps. -/
structure Store where
  holds : String → Option HoldVal
  carts : String → Option Cart

/-- `CART_HOLD_SECONDS` default. -/
def HOLD_SECONDS : Int := 600

/-- `` `ticket_hold:${ticketId}` `` -/
def ticketHoldKey (ticketId : String) : String := "ticket_hold:" ++ ticketId

/-- `` `cart:${cartId}` `` -/
def cartKey (cartId : String) : String := "cart:" ++ cartId

/-- Point update of the hold map. -/
def setHoldVal (st : Store) (key : String) (v : Option HoldVal) : Store :=
  { st with holds := fun k => if k = key then v else st.holds k }

/-- Point update of the cart map (`SET`/`DEL` of a `cart:` key). -/
def setCartVal (st : Store) (key : String) (v : Option Cart) : Store :=
  { st with carts := fun k => if k = key then v else st.carts k }

/-- `parseInt(raw, 10)` applied to the raw counter as in
`currentHoldRaw ? parseInt(currentHoldRaw, 10) : 0`; `none` is `NaN`. -/
def parseIntHold : Option HoldVal → Option Int
  | none => some 0
  | some (.int n) => some n
  | some .corrupt => none

/-- `Number.isNaN(currentHold) ? 0 : currentHold`: the counter value
that enters the availability computation. -/
def holdForAvailability (raw : Option HoldVal) : Int :=
  (parseIntHold raw).getD 0

/-- `INCRBY key n`: absent keys count as `0`; a non-integer value makes
the command error, leaving the store unchanged. -/
def incrbyHold (st : Store) (key : String) (n : Int) : Store :=
  match st.holds key with
  | some .corrupt => st
  | some (.int m) => setHoldVal st key (some (.int (m + n)))
  | none => setHoldVal st key (some (.int n))

/-- `DECRBY key n`, returning the decremented value together with the
store after the write; `none` when the stored value is not an integer
(redis raises, nothing is written). -/
def decrbyHold (st : Store) (key : String) (n : Int) : Option (Int × Store) :=
  match st.holds key with
  | some .corrupt => none
  | some (.int m) => some (m - n, setHoldVal st key (some (.int (m - n))))
  | none => some (0 - n, setHoldVal st key (some (.int (0 - n))))

/-- JS object lookup `items[k]`. -/
def lookupItem (items : List (String × CartItem)) (k : String) : Option CartItem :=
  match items with
  | [] => none
  | (k', v) :: rest => if k' = k then some v else lookupItem rest k

/-- JS object assignment `items[k] = v` (replace in place, else append). -/
def setItem (items : List (String × CartItem)) (k : String) (v : CartItem) :
    List (String × CartItem) :=
  match items with
  | [] => [(k, v)]
  | (k', v') :: rest => if k' = k then (k, v) :: rest else (k', v') :: setItem rest k v

/-- JS `delete items[k]`. -/
def eraseItem (items : List (String × CartItem)) (k : String) :
    List (String × CartItem) :=
  match items with
  | [] => []
  | (k', v') :: rest => if k' = k then eraseItem rest k else (k', v') :: eraseItem rest k

/-- `validateQuantity(quantity, perOrderLimit)`: `none` when valid,
otherwise the thrown error.  The `Number.isInteger` conjunct is carried
by the `Int` type; `perOrderLimit &&` is JS truthiness on a number,
i.e. `perOrderLimit ≠ 0`. -/
def validateQuantity (quantity perOrderLimit : Int) : Option RErr :=
  if quantity ≤ 0 then some .invalidQuantity
  else if perOrderLimit ≠ 0 ∧ perOrderLimit < quantity then some .overPerOrderLimit
  else none

/-- `buildCartItem(ticket, quantity, expiresAtIso, ticketId)`. -/
def buildCartItem (ticket : Ticket) (quantity : Int) (expiresAt : Int)
    (ticketId : String) : CartItem :=
  { ticketId := ticketId
    eventId := ticket.eventId
    name := ticket.name
    type := ticket.type
    priceCents := ticket.priceCents
    currency := ticket.currency
    perOrderLimit := ticket.perOrderLimit
    quantity := quantity
    holdExpiresAt := expiresAt }

/-- Inputs and oracles of one `reserveTickets` call: the request fields,
the (read-only) ticket collection backing `Ticket.findById`, the UUID
and clock oracles, and the per-attempt `MULTI/EXEC` conflict oracle. -/
structure ReserveEnv where
  userId : String
  ticketId : String
  quantity : Int
  cartId : Option String
  tickets : String → Option Ticket
  freshCartId : String
  now : Int
  conflictAt : Nat → Bool

/-- The value a successful `reserveTickets` resolves with. -/
structure ReserveOk where
  cartId : String
  cart : Cart
deriving DecidableEq, Repr

/-- One iteration of the `withRetry` body inside `reserveTickets`
(lines 119-178): `WATCH` the hold key, read the counter, compute
availability, reject insufficient inventory as non-retryable, merge the
cart line, re-validate the per-order limit against the merged total,
then atomically apply `INCRBY`/`EXPIRE`/`SET` — all rejected together
when the watched key changed (`conflictAt i`).

The closure state threaded between attempts is `Store × Option Cart`:
the redis store plus the shared `workingCart` object the closure
captured.  `updatedCart` *is* that object when one exists
(`workingCart || {...}`), so the JS assignment
`updatedCart.items[ticketIdString] = buildCartItem(...)` — executed
after the merged-limit validation and before `EXEC` — mutates it in
place, and a rejected `EXEC` hands the mutated cart to the retry.
When no cart exists, `updatedCart` is a fresh object local to the
attempt and the threaded component stays `none`. -/
def reserveAttempt (env : ReserveEnv) (ticket : Ticket) (i : Nat) :
    Store × Option Cart → (Store × Option Cart) × Except RErr ReserveOk
  | (st, workingCart) =>
    let holdKey := ticketHoldKey env.ticketId
    let currentHold := holdForAvailability (st.holds holdKey)
    let available := ticket.qtyTotal - ticket.qtySold - currentHold
    if available < env.quantity then
      ((st, workingCart), .error .insufficientInventory)
    else
      let ticketIdString := ticket.id
      let effectiveCartId := match workingCart with
        | some c => c.cartId
        | none => env.freshCartId
      let expiresAt := env.now + HOLD_SECONDS * 1000
      let updatedCart := match workingCart with
        | some c => c
        | none => { cartId := effectiveCartId, userId := env.userId,
                    eventId := ticket.eventId, currency := ticket.currency,
                    items := [] }
      let existingItem := lookupItem updatedCart.items ticketIdString
      let nextQuantity := match existingItem with
        | some it => it.quantity + env.quantity
        | none => env.quantity
      match validateQuantity nextQuantity ticket.perOrderLimit with
      | some e => ((st, workingCart), .error e)
      | none =>
        let newCart := { updatedCart with
          items := setItem updatedCart.items ticketIdString
            (buildCartItem ticket nextQuantity expiresAt ticketIdString) }
        let workingCart' : Option Cart := match workingCart with
          | some _ => some newCart
          | none => none
        if env.conflictAt i then
          ((st, workingCart'), .error .conflict)
        else
          let st1 := incrbyHold st holdKey env.quantity
          let st2 := setCartVal st1 (cartKey effectiveCartId) (some newCart)
          ((st2, workingCart'), .ok { cartId := effectiveCartId, cart := newCart })

/-- The loop of `withRetry(fn, attempts = 3)`: run `fn`; on success
return; on an error with `retryable === false` stop; otherwise keep the
error as `lastError` and iterate; when attempts are exhausted, throw
`lastError`.  `i` is the attempt index, `fuel` the remaining attempts;
`σ` is the ambient state an attempt reads and writes (for
`reserveTickets`: the redis store and the captured `workingCart`). -/
def withRetryGo {σ α : Type} (fn : Nat → σ → σ × Except RErr α)
    (i : Nat) (fuel : Nat) (last : Option RErr) (s : σ) :
    σ × Except RErr α :=
  match fuel with
  | 0 => (s, .error (last.getD .conflict))
  | fuel' + 1 =>
    match fn i s with
    | (s', .ok a) => (s', .ok a)
    | (s', .error e) =>
      if e.retryableIsFalse then (s', .error e)
      else withRetryGo fn (i + 1) fuel' (some e) s'

/-- `withRetry(fn, attempts = 3)`. -/
def withRetry {σ α : Type} (fn : Nat → σ → σ × Except RErr α)
    (attempts : Nat) (s : σ) : σ × Except RErr α :=
  withRetryGo fn 0 attempts none s

/-- `reserveTickets({userId, ticketId, quantity, cartId})`: look the
ticket up, validate the requested quantity against the per-order limit,
load and check any existing cart (ownership, single event), then run
the optimistic read-validate-apply loop under `withRetry`, with the
shared `workingCart` threaded alongside the store.  The caller observes
the final redis store and the outcome; the closure-local cart object is
dropped. -/
def reserveTickets (env : ReserveEnv) (st : Store) : Store × Except RErr ReserveOk :=
  match env.tickets env.ticketId with
  | none => (st, .error .ticketNotFound)
  | some ticket =>
    match validateQuantity env.quantity ticket.perOrderLimit with
    | some e => (st, .error e)
    | none =>
      let workingCart : Option Cart := match env.cartId with
        | some cid => st.carts (cartKey cid)
        | none => none
      match workingCart with
      | some c =>
        if c.userId ≠ env.userId then (st, .error .cartWrongUser)
        else if c.eventId ≠ ticket.eventId then (st, .error .cartWrongEvent)
        else
          let r := withRetry (reserveAttempt env ticket) 3 (st, some c)
          (r.1.1, r.2)
      | none =>
        let r := withRetry (reserveAttempt env ticket) 3 (st, none)
        (r.1.1, r.2)

/-- The tail of `releaseCartItem` after the hold counter was adjusted:
update or drop the released line, then re-persist the cart, or delete
its key when no items remain. -/
def releaseFinish (cartId ticketId : String) (now : Int) (workingCart : Cart)
    (existingItem : CartItem) (newQuantity : Int) (st : Store) :
    Store × Except RErr (Option Cart) :=
  let newItems :=
    if 0 < newQuantity then
      setItem workingCart.items ticketId
        { existingItem with quantity := newQuantity,
                            holdExpiresAt := now + HOLD_SECONDS * 1000 }
    else eraseItem workingCart.items ticketId
  let newCart := { workingCart with items := newItems }
  if newItems.isEmpty then
    (setCartVal st (cartKey cartId) none, .ok none)
  else
    (setCartVal st (cartKey cartId) (some newCart), .ok (some newCart))

/-- The middle of `releaseCartItem`, once `newQuantity` and
`decrementBy` are computed: when `decrementBy > 0`, `DECRBY` the hold
counter and delete its key if the decremented value is `≤ 0` (else
refresh its TTL), then finish with the cart update. -/
def releaseAmounts (cartId ticketId : String) (now : Int) (currentCart : Cart)
    (existingItem : CartItem) (newQuantity decrementBy : Int) (st : Store) :
    Store × Except RErr (Option Cart) :=
  if 0 < decrementBy then
    match decrbyHold st (ticketHoldKey ticketId) decrementBy with
    | none => (st, .error .redisTypeErr)
    | some (newHold, st') =>
      releaseFinish cartId ticketId now currentCart existingItem newQuantity
        (if newHold ≤ 0 then setHoldVal st' (ticketHoldKey ticketId) none else st')
  else
    releaseFinish cartId ticketId now currentCart existingItem newQuantity st

/-- `releaseCartItem({cartId, ticketId, quantity})`: no-op on a missing
cart or line; otherwise decrement the line by `quantity` (drop it when
`quantity` is omitted — the two JS ternaries both test
`typeof quantity === "number"`, i.e. this match), `DECRBY` the hold
counter by the clamped amount, delete the counter key when the value
reaches `≤ 0`, then re-persist or delete the cart. -/
def releaseCartItem (cartId ticketId : String) (quantity : Option Int) (now : Int)
    (st : Store) : Store × Except RErr (Option Cart) :=
  match st.carts (cartKey cartId) with
  | none => (st, .ok none)
  | some currentCart =>
    match lookupItem currentCart.items ticketId with
    | none => (st, .ok (some currentCart))
    | some existingItem =>
      match quantity with
      | some q =>
        releaseAmounts cartId ticketId now currentCart existingItem
          (existingItem.quantity - q) (min q existingItem.quantity) st
      | none =>
        releaseAmounts cartId ticketId now currentCart existingItem 0
          existingItem.quantity st

/-- The `for (const item of Object.values(cart.items))` loop of
`clearCart`: `DECRBY` each line's counter and delete it when it reaches
`≤ 0`. -/
def clearItems : List (String × CartItem) → Store → Store × Except RErr Unit
  | [], st => (st, .ok ())
  | (_, item) :: rest, st =>
    match decrbyHold st (ticketHoldKey item.ticketId) item.quantity with
    | none => (st, .error .redisTypeErr)
    | some (remaining, st') =>
      let st1 := if remaining ≤ 0 then setHoldVal st' (ticketHoldKey item.ticketId) none
                 else st'
      clearItems rest st1

/-- `clearCart(cartId)`: release every line's hold contribution, then
delete the cart key. -/
def clearCart (cartId : String) (st : Store) : Store × Except RErr Unit :=
  match st.carts (cartKey cartId) with
  | none => (st, .ok ())
  | some cart =>
    match clearItems cart.items st with
    | (st1, .ok _) => (setCartVal st1 (cartKey cartId) none, .ok ())
    | (st1, .error e) => (st1, .error e)

/-- The durable (Mongo) store as the booking route sees it: events and
tickets by lookup, bookings append-only. -/
structure TxStore where
  events : String → Option Event
  tickets : List Ticket
  bookings : List Booking

/-- The inputs of one `POST /api/events/:id/bookings` call (after the
JWT was verified; `userId` is the decoded subject). -/
structure BookReq where
  eventId : String
  ticketId : Option String
  ticketType : Option String
  quantity : Int
  userId : String

/-- The filter part of `ticketQuery`: event, `status: "active"`, plus
`_id` when `ticketId` was sent and `name` when `ticketType` was sent —
both filters apply when both are sent. -/
def ticketMatches (eventId : String) (ticketId? ticketType? : Option String)
    (t : Ticket) : Bool :=
  t.eventId == eventId && t.status == "active" &&
  (match ticketId? with | some i => t.id == i | none => true) &&
  (match ticketType? with | some n => t.name == n | none => true)

/-- First document in ascending `priceCents` order (the
`.sort({ priceCents: 1 })` of the `findOne`): the first listed ticket
among those of minimal price. -/
def cheapest : List Ticket → Option Ticket
  | [] => none
  | t :: ts =>
    match cheapest ts with
    | none => some t
    | some u => if t.priceCents ≤ u.priceCents then some t else some u

/-- `Ticket.findOne(ticketQuery).sort({ priceCents: 1 })`. -/
def findTicket (tickets : List Ticket) (eventId : String)
    (ticketId? ticketType? : Option String) : Option Ticket :=
  cheapest (tickets.filter (ticketMatches eventId ticketId? ticketType?))

/-- `ticket.save({ session })`: replace the document with this `_id`. -/
def saveTicket (tickets : List Ticket) (t : Ticket) : List Ticket :=
  tickets.map (fun u => if u.id = t.id then t else u)

/-- The body of `session.withTransaction` in the bookings route: the
five checks (published event, matching active SKU, sales window,
per-order limit, inventory), then `qtySold += qty`, the ticket save and
the booking insert.  Every check precedes every write. -/
def bookingTxn (st : TxStore) (req : BookReq) (now : Int) :
    TxStore × Except BErr Booking :=
  match st.events req.eventId with
  | none => (st, .error .eventNotFound)
  | some ev =>
    if ev.status ≠ "published" then (st, .error .eventNotPublished)
    else
      match findTicket st.tickets req.eventId req.ticketId req.ticketType with
      | none => (st, .error .noInventory)
      | some ticket =>
        if (match ticket.salesStart with | some s => decide (now < s) | none => false) then
          (st, .error .salesNotStarted)
        else if (match ticket.salesEnd with | some e => decide (e < now) | none => false) then
          (st, .error .salesWindowClosed)
        else if ticket.perOrderLimit ≠ 0 ∧ ticket.perOrderLimit < req.quantity then
          (st, .error .limitExceeded)
        else if ticket.qtyTotal < ticket.qtySold + req.quantity then
          (st, .error .insufficientInventory)
        else
          let updated := { ticket with qtySold := ticket.qtySold + req.quantity }
          let booking : Booking :=
            { event_id := req.eventId
              user_id := req.userId
              quantity := req.quantity
              total_amount := (ticket.priceCents * req.quantity : ℚ) / 100
              booking_status := "confirmed" }
          ({ st with tickets := saveTicket st.tickets updated,
                     bookings := st.bookings ++ [booking] },
           .ok booking)

/-- The route around the transaction: quantity validation before the
session starts, and abort-on-throw semantics — a failed transaction
leaves the durable store as it was. -/
def bookingsPost (st : TxStore) (req : BookReq) (now : Int) :
    TxStore × Except BErr Booking :=
  if req.quantity ≤ 0 then (st, .error .invalidQuantity)
  else
    match bookingTxn st req now with
    | (st', .ok b) => (st', .ok b)
    | (_, .error e) => (st, .error e)

/-- Modelled from the spec: the claim's selection rule — "by explicit
ticket id if given, else by name, else the cheapest active SKU for the
event".  Used only to compare the claimed rule with the code's
`findTicket`. -/
def specLocateTicket (tickets : List Ticket) (eventId : String)
    (ticketId? ticketType? : Option String) : Option Ticket :=
  let actives := tickets.filter (fun t => t.eventId == eventId && t.status == "active")
  match ticketId? with
  | some i => actives.find? (fun t => t.id == i)
  | none =>
    match ticketType? with
    | some n => actives.find? (fun t => t.name == n)
    | none => cheapest actives

deriving instance DecidableEq for Except

/-! ## Booking transaction: helper lemmas -/

/-- Characterization of a successful transaction body: the event was
published, a SKU was found, the inventory check held, and the store and
booking are exactly the transcribed writes. -/
theorem bookingTxn_ok_elim {st : TxStore} {req : BookReq} {now : Int}
    {st' : TxStore} {bk : Booking}
    (h : bookingTxn st req now = (st', .ok bk)) :
    ∃ ev t, st.events req.eventId = some ev ∧ ev.status = "published" ∧
      findTicket st.tickets req.eventId req.ticketId req.ticketType = some t ∧
      t.qtySold + req.quantity ≤ t.qtyTotal ∧
      bk = { event_id := req.eventId
             user_id := req.userId
             quantity := req.quantity
             total_amount := (t.priceCents * req.quantity : ℚ) / 100
             booking_status := "confirmed" } ∧
      st' = { st with
              tickets := saveTicket st.tickets { t with qtySold := t.qtySold + req.quantity }
              bookings := st.bookings ++ [bk] } := by
  unfold bookingTxn at h
  split at h
  · simp at h
  case h_2 ev hev =>
    split at h
    · simp at h
    case isFalse hpub =>
      split at h
      · simp at h
      case h_2 t ht =>
        split at h
        · simp at h
        split at h
        · simp at h
        split at h
        · simp at h
        split at h
        · simp at h
        case isFalse hq =>
          simp only [Prod.mk.injEq, Except.ok.injEq] at h
          obtain ⟨hst, hbk⟩ := h
          refine ⟨ev, t, hev, not_ne_iff.mp hpub, ht, by omega, hbk.symm, ?_⟩
          rw [← hst, ← hbk]

/-! ## Shared concrete fixtures for witnesses and counterexamples -/

/-- An active paid SKU: 100 minor units, capacity 10, nothing sold,
per-order limit 4, no sales window. -/
def exTicket : Ticket :=
  { id := "t1"
    eventId := "e1"
    name := "GA"
    type := "paid"
    priceCents := 100
    currency := "USD"
    qtyTotal := 10
    qtySold := 0
    salesStart := none
    salesEnd := none
    perOrderLimit := 4
    status := "active" }

/-- A durable store with one draft event `"e1"` and `exTicket`. -/
def exDraftTx : TxStore :=
  { events := fun e => if e = "e1" then some { status := "draft" } else none
    tickets := [exTicket]
    bookings := [] }

/-- A durable store with one published event `"e1"` and `exTicket`. -/
def exPubTx : TxStore :=
  { events := fun e => if e = "e1" then some { status := "published" } else none
    tickets := [exTicket]
    bookings := [] }

/-- A booking request for two tickets with no SKU selector. -/
def exReq : BookReq :=
  { eventId := "e1"
    ticketId := none
    ticketType := none
    quantity := 2
    userId := "u1" }

/-- C3: whenever the transaction body of the bookings route throws —
and in particular when any of the five validation checks fails (event
not published, no matching active SKU, sales window, per-order limit,
inventory) — the transaction leaves the durable store exactly as it
was: no ticket's `qtySold` changes and no booking record is created. -/
theorem c3_failed_finalize_has_no_partial_effect
    (st : TxStore) (req : BookReq) (now : Int) (st' : TxStore) (e : BErr)
    (h : bookingTxn st req now = (st', .error e)) : st' = st := by
  unfold bookingTxn at h
  repeat' split at h
  all_goals simp only [Prod.mk.injEq] at h
  all_goals first
    | exact h.1.symm
    | exact absurd h.2 (by simp)

/-- Witness for C3: booking against a draft event fails and the store
is returned unchanged. -/
theorem c3_witness :
    (bookingTxn exDraftTx exReq 0).1 = exDraftTx :=
  c3_failed_finalize_has_no_partial_effect exDraftTx exReq 0
    (bookingTxn exDraftTx exReq 0).1 BErr.eventNotPublished (by rfl)

/-- `saveTicket` keeps `qtySold ≤ qtyTotal` across the collection when
the saved document itself satisfies it. -/
theorem saveTicket_sold_le_total {tickets : List Ticket} {t : Ticket}
    (hInv : ∀ u ∈ tickets, u.qtySold ≤ u.qtyTotal)
    (ht : t.qtySold ≤ t.qtyTotal) :
    ∀ u ∈ saveTicket tickets t, u.qtySold ≤ u.qtyTotal := by
  intro u hu
  unfold saveTicket at hu
  obtain ⟨v, hv, huv⟩ := List.mem_map.mp hu
  by_cases h : v.id = t.id
  · simp only [h, if_true] at huv
    exact huv ▸ ht
  · simp only [h, if_false] at huv
    exact huv ▸ hInv v hv

/-- One route call (commit or abort) preserves `qtySold ≤ qtyTotal`. -/
theorem bookingsPost_preserves_inv {st : TxStore}
    (hInv : ∀ u ∈ st.tickets, u.qtySold ≤ u.qtyTotal)
    (req : BookReq) (now : Int) :
    ∀ u ∈ (bookingsPost st req now).1.tickets, u.qtySold ≤ u.qtyTotal := by
  unfold bookingsPost
  split
  · exact hInv
  split
  case h_1 st' b heq =>
    obtain ⟨ev, t, _, _, _, hqty, _, hst⟩ := bookingTxn_ok_elim heq
    simp only [hst]
    exact saveTicket_sold_le_total hInv (by simpa using hqty)
  case h_2 => exact hInv

/-- Folding any sequence of (serialized) booking calls preserves
`qtySold ≤ qtyTotal` on every ticket. -/
theorem bookingsPost_foldl_preserves_inv :
    ∀ (reqs : List (BookReq × Int)) (st : TxStore),
      (∀ u ∈ st.tickets, u.qtySold ≤ u.qtyTotal) →
      ∀ u ∈ (reqs.foldl (fun s r => (bookingsPost s r.1 r.2).1) st).tickets,
        u.qtySold ≤ u.qtyTotal
  | [], _, hInv => hInv
  | r :: rs, _, hInv =>
    bookingsPost_foldl_preserves_inv rs _ (bookingsPost_preserves_inv hInv r.1 r.2)

/-- C2: a successful finalize happened only because the in-transaction
check `qtySold + quantity ≤ qtyTotal` held, and its only ticket write
raises the located SKU's `qtySold` by exactly the booked quantity;
consequently `qtySold ≤ qtyTotal` is preserved across any serialized
sequence of finalize calls (the store's isolation serializes concurrent
calls, so arbitrary interleavings are such sequences). -/
theorem c2_finalize_checks_and_preserves_invariant
    (st : TxStore) (hInv : ∀ u ∈ st.tickets, u.qtySold ≤ u.qtyTotal) :
    (∀ req now st' bk, bookingTxn st req now = (st', .ok bk) →
      ∃ t, findTicket st.tickets req.eventId req.ticketId req.ticketType = some t ∧
        t.qtySold + req.quantity ≤ t.qtyTotal ∧
        st'.tickets = saveTicket st.tickets { t with qtySold := t.qtySold + req.quantity }) ∧
    (∀ reqs : List (BookReq × Int),
      ∀ u ∈ (reqs.foldl (fun s r => (bookingsPost s r.1 r.2).1) st).tickets,
        u.qtySold ≤ u.qtyTotal) := by
  constructor
  · intro req now st' bk h
    obtain ⟨ev, t, _, _, hft, hqty, _, hst⟩ := bookingTxn_ok_elim h
    exact ⟨t, hft, hqty, by rw [hst]⟩
  · intro reqs
    exact bookingsPost_foldl_preserves_inv reqs st hInv

/-- Witness for C2: two serialized bookings of 2 tickets each against
`exPubTx` leave the (now fully updated) SKU with `qtySold = 4 ≤ 10`. -/
theorem c2_witness :
    ({ exTicket with qtySold := 4 } : Ticket).qtySold ≤
      ({ exTicket with qtySold := 4 } : Ticket).qtyTotal :=
  (c2_finalize_checks_and_preserves_invariant exPubTx (by decide)).2
    [(exReq, 0), (exReq, 0)] { exTicket with qtySold := 4 } (by decide)

/-- The booking record the route creates for `exPubTx`/`exReq`:
`(100 × 2) / 100 = 2` major currency units. -/
def exBooking : Booking :=
  { event_id := "e1"
    user_id := "u1"
    quantity := 2
    total_amount := ((100 : Int) : ℚ) * ((2 : Int) : ℚ) / 100
    booking_status := "confirmed" }

/-- Counterexample to C5: booking 2 tickets of a SKU priced at 100
minor units records `total_amount = (100 × 2) / 100 = 2` (the code
divides by 100), whereas the claimed `unitPrice × quantity` is
`100 × 2 = 200`. -/
theorem c5_counterexample :
    (bookingTxn exPubTx exReq 0).2 = .ok exBooking ∧
    exTicket.priceCents * exReq.quantity = 200 ∧
    exBooking.total_amount = 2 ∧
    exBooking.total_amount ≠ ((200 : Int) : ℚ) := by
  refine ⟨by rfl, by decide, by norm_num [exBooking], by norm_num [exBooking]⟩

/-- C5 (amended): on success the booking is created — in the same
transaction — with `total_amount = unitPrice × quantity / 100`
(minor-unit price converted to major currency units) and status
`confirmed`. -/
theorem c5_amended_booking_fields
    (st : TxStore) (req : BookReq) (now : Int) (st' : TxStore)
    (bk : Booking) (t : Ticket)
    (hok : bookingTxn st req now = (st', .ok bk))
    (hft : findTicket st.tickets req.eventId req.ticketId req.ticketType = some t) :
    bk.total_amount = (t.priceCents * req.quantity : ℚ) / 100 ∧
    bk.booking_status = "confirmed" ∧
    st'.bookings = st.bookings ++ [bk] := by
  obtain ⟨ev, t', _, _, hft', _, hbk, hst⟩ := bookingTxn_ok_elim hok
  obtain rfl : t' = t := by rw [hft] at hft'; exact (Option.some_inj.mp hft').symm
  exact ⟨by rw [hbk], by rw [hbk], by rw [hst]⟩

/-- Witness for C5 (amended), at the concrete booking of `exReq`
against `exPubTx`. -/
theorem c5_amended_witness :
    exBooking.total_amount = (exTicket.priceCents * exReq.quantity : ℚ) / 100 ∧
    exBooking.booking_status = "confirmed" ∧
    (bookingTxn exPubTx exReq 0).1.bookings = exPubTx.bookings ++ [exBooking] :=
  c5_amended_booking_fields exPubTx exReq 0 (bookingTxn exPubTx exReq 0).1
    exBooking exTicket (by rfl) (by rfl)

/-- `cheapest` returns an element of its input list. -/
theorem cheapest_mem : ∀ {l : List Ticket} {t : Ticket}, cheapest l = some t → t ∈ l := by
  intro l
  induction l with
  | nil => intro t h; simp [cheapest] at h
  | cons x xs ih =>
    intro t h
    unfold cheapest at h
    split at h
    · exact (Option.some_inj.mp h) ▸ List.mem_cons_self x xs
    case h_2 u hu =>
      split at h
      · exact (Option.some_inj.mp h) ▸ List.mem_cons_self x xs
      · exact List.mem_cons_of_mem x (ih ((Option.some_inj.mp h) ▸ hu))

/-- `cheapest` is `none` only on the empty list. -/
theorem cheapest_eq_none : ∀ {l : List Ticket}, cheapest l = none → l = [] := by
  intro l h
  cases l with
  | nil => rfl
  | cons x xs =>
    unfold cheapest at h
    split at h
    · simp at h
    · split at h <;> simp at h

/-- `cheapest` returns a price-minimal element. -/
theorem cheapest_le : ∀ {l : List Ticket} {t : Ticket}, cheapest l = some t →
    ∀ u ∈ l, t.priceCents ≤ u.priceCents := by
  intro l
  induction l with
  | nil => intro t h; simp [cheapest] at h
  | cons x xs ih =>
    intro t h u hu
    unfold cheapest at h
    split at h
    case h_1 hnone =>
      obtain rfl : x = t := Option.some_inj.mp h
      obtain rfl : xs = [] := cheapest_eq_none hnone
      rcases List.mem_cons.mp hu with rfl | hmem
      · exact le_refl _
      · simp at hmem
    case h_2 v hv =>
      rcases List.mem_cons.mp hu with rfl | hmem
      · split at h
        case isTrue hle =>
          obtain rfl : u = t := Option.some_inj.mp h
          exact le_refl _
        case isFalse hgt =>
          obtain rfl : v = t := Option.some_inj.mp h
          exact le_of_not_le hgt
      · split at h
        case isTrue hle =>
          obtain rfl : x = t := Option.some_inj.mp h
          exact le_trans hle (ih hv u hmem)
        case isFalse hgt =>
          obtain rfl : v = t := Option.some_inj.mp h
          exact ih hv u hmem

/-- Counterexample to C6: with both `ticketId` and `ticketType` sent
and the name not matching the ticket of that id, the claimed rule
("by explicit ticket id if given") locates the SKU, but the code — which
conjoins both filters in `ticketQuery` — finds no match and fails with
`NoInventory`. -/
theorem c6_counterexample :
    specLocateTicket exPubTx.tickets "e1" (some "t1") (some "VIP") = some exTicket ∧
    (bookingTxn exPubTx { exReq with ticketId := some "t1", ticketType := some "VIP" } 0).2
      = .error .noInventory :=
  ⟨by rfl, by rfl⟩

/-- C6 (amended): the SKU used is a cheapest one among the event's
`active` SKUs matching the conjunction of all supplied selectors
(explicit ticket id and/or name; both must match when both are given);
when no SKU matches all of them the call fails with `NoInventory`. -/
theorem c6_amended_sku_selection (st : TxStore) (req : BookReq) (now : Int) :
    (∀ t, findTicket st.tickets req.eventId req.ticketId req.ticketType = some t →
        t ∈ st.tickets ∧ ticketMatches req.eventId req.ticketId req.ticketType t = true ∧
        ∀ u ∈ st.tickets, ticketMatches req.eventId req.ticketId req.ticketType u = true →
          t.priceCents ≤ u.priceCents) ∧
    (∀ ev, st.events req.eventId = some ev → ev.status = "published" →
        findTicket st.tickets req.eventId req.ticketId req.ticketType = none →
        bookingTxn st req now = (st, .error .noInventory)) := by
  constructor
  · intro t h
    unfold findTicket at h
    have hmf := List.mem_filter.mp (cheapest_mem h)
    refine ⟨hmf.1, hmf.2, ?_⟩
    intro u hu hmatch
    exact cheapest_le h u (List.mem_filter.mpr ⟨hu, hmatch⟩)
  · intro ev hev hpub hnone
    unfold bookingTxn
    rw [hev]
    simp [hpub, hnone]

/-- Witness for C6 (amended): the SKU located for a selector-free
request against `exPubTx` is a member of the collection. -/
theorem c6_amended_witness : exTicket ∈ exPubTx.tickets :=
  ((c6_amended_sku_selection exPubTx exReq 0).1 exTicket (by rfl)).1

/-! ## Hold service: counter invariant (release / clear) -/

/-- Every persisted hold counter is a positive integer, or its key is
absent. -/
def HoldsInv (st : Store) : Prop :=
  ∀ k, st.holds k = none ∨ ∃ n : Int, 0 < n ∧ st.holds k = some (.int n)

/-- `decrbyHold` success writes the decremented value at the key. -/
theorem decrbyHold_eq {st : Store} {key : String} {n newHold : Int} {st' : Store}
    (h : decrbyHold st key n = some (newHold, st')) :
    st' = setHoldVal st key (some (.int newHold)) := by
  unfold decrbyHold at h
  split at h
  · simp at h
  · simp only [Option.some.injEq, Prod.mk.injEq] at h
    obtain ⟨h1, h2⟩ := h
    rw [← h2, ← h1]
  · simp only [Option.some.injEq, Prod.mk.injEq] at h
    obtain ⟨h1, h2⟩ := h
    rw [← h2, ← h1]

/-- The decrby-then-clamp step (`DECRBY`, then `DEL` when `≤ 0`)
preserves the counter invariant. -/
theorem holdsInv_clamp (st : Store) (hInv : HoldsInv st) (key : String) (newHold : Int) :
    HoldsInv (if newHold ≤ 0
              then setHoldVal (setHoldVal st key (some (.int newHold))) key none
              else setHoldVal st key (some (.int newHold))) := by
  split
  case isTrue h =>
    intro k
    by_cases hk : k = key
    · left; simp [setHoldVal, hk]
    · rcases hInv k with h0 | ⟨n, hn, h1⟩
      · left; simp [setHoldVal, hk, h0]
      · right; exact ⟨n, hn, by simp [setHoldVal, hk, h1]⟩
  case isFalse h =>
    intro k
    by_cases hk : k = key
    · right; exact ⟨newHold, by omega, by simp [setHoldVal, hk]⟩
    · rcases hInv k with h0 | ⟨n, hn, h1⟩
      · left; simp [setHoldVal, hk, h0]
      · right; exact ⟨n, hn, by simp [setHoldVal, hk, h1]⟩

/-- `releaseFinish` only touches the cart key, never a hold counter. -/
theorem releaseFinish_holds (cartId ticketId : String) (now : Int) (c : Cart)
    (it : CartItem) (nq : Int) (st : Store) :
    ((releaseFinish cartId ticketId now c it nq st).1).holds = st.holds := by
  unfold releaseFinish
  split <;> dsimp only <;> split <;> rfl

/-- `releaseAmounts` preserves the counter invariant. -/
theorem releaseAmounts_holdsInv (cartId ticketId : String) (now : Int) (c : Cart)
    (it : CartItem) (nq d : Int) (st : Store) (hInv : HoldsInv st) :
    HoldsInv (releaseAmounts cartId ticketId now c it nq d st).1 := by
  unfold releaseAmounts
  split
  case isTrue hd =>
    split
    · exact hInv
    case h_2 newHold st' heq =>
      have hst' := decrbyHold_eq heq
      subst hst'
      have h1 := holdsInv_clamp st hInv (ticketHoldKey ticketId) newHold
      intro k
      rw [releaseFinish_holds]
      exact h1 k
  case isFalse hd =>
    intro k
    rw [releaseFinish_holds]
    exact hInv k

/-- `releaseCartItem` preserves the counter invariant. -/
theorem releaseCartItem_holdsInv (cartId ticketId : String) (q : Option Int)
    (now : Int) (st : Store) (hInv : HoldsInv st) :
    HoldsInv (releaseCartItem cartId ticketId q now st).1 := by
  unfold releaseCartItem
  split
  · exact hInv
  split
  · exact hInv
  split
  · exact releaseAmounts_holdsInv _ _ _ _ _ _ _ _ hInv
  · exact releaseAmounts_holdsInv _ _ _ _ _ _ _ _ hInv

/-- The clearing loop preserves the counter invariant. -/
theorem clearItems_holdsInv : ∀ (items : List (String × CartItem)) (st : Store),
    HoldsInv st → HoldsInv (clearItems items st).1
  | [], _, hInv => hInv
  | (k, item) :: rest, st, hInv => by
    unfold clearItems
    split
    · exact hInv
    case h_2 remaining st' heq =>
      have hst' := decrbyHold_eq heq
      subst hst'
      exact clearItems_holdsInv rest _
        (holdsInv_clamp st hInv (ticketHoldKey item.ticketId) remaining)

/-- `clearCart` preserves the counter invariant. -/
theorem clearCart_holdsInv (cartId : String) (st : Store) (hInv : HoldsInv st) :
    HoldsInv (clearCart cartId st).1 := by
  unfold clearCart
  split
  · exact hInv
  case h_2 cart hcart =>
    split
    case h_1 st1 u heq =>
      have h1 : HoldsInv st1 := by
        have h2 := clearItems_holdsInv cart.items st hInv
        rw [heq] at h2
        exact h2
      intro k
      exact h1 k
    case h_2 st1 e heq =>
      have h2 := clearItems_holdsInv cart.items st hInv
      rw [heq] at h2
      exact h2

/-- C9: after every release or clear, each persisted hold counter is a
positive integer or its key is absent (given the same was true before):
an underflowing `DECRBY` is clamped by deleting the key rather than
persisting a non-positive value, and a counter reaching zero has its
key deleted (zero is equivalent to absent). -/
theorem c9_release_clear_counter_positive_or_absent
    (st : Store) (hInv : HoldsInv st) (cartId ticketId : String)
    (quantity : Option Int) (now : Int) :
    HoldsInv (releaseCartItem cartId ticketId quantity now st).1 ∧
    HoldsInv (clearCart cartId st).1 :=
  ⟨releaseCartItem_holdsInv cartId ticketId quantity now st hInv,
   clearCart_holdsInv cartId st hInv⟩

/-- A cart holding 2 units of `exTicket`, stored under `"c1"`, with no
hold counters present (so the release `DECRBY` drives the counter
negative and the key is deleted). -/
def exStoreHold : Store :=
  { holds := fun _ => none
    carts := fun k =>
      if k = cartKey "c1" then
        some { cartId := "c1"
               userId := "u1"
               eventId := "e1"
               currency := "USD"
               items := [("t1", buildCartItem exTicket 2 600000 "t1")] }
      else none }

/-- Witness for C9 at a concrete store exercising the underflow clamp. -/
theorem c9_witness :
    HoldsInv (releaseCartItem "c1" "t1" (some 2) 0 exStoreHold).1 ∧
    HoldsInv (clearCart "c1" exStoreHold).1 :=
  c9_release_clear_counter_positive_or_absent exStoreHold
    (fun _ => Or.inl rfl) "c1" "t1" (some 2) 0

/-! ## Hold service: reservation lemmas -/

/-- A valid requested quantity passes `validateQuantity`. -/
theorem validateQuantity_eq_none {q l : Int} (h1 : 0 < q) (h2 : q ≤ l) :
    validateQuantity q l = none := by
  unfold validateQuantity
  rw [if_neg (by omega), if_neg (by omega)]

/-- A positive quantity above a positive limit fails `validateQuantity`
with the per-order-limit error. -/
theorem validateQuantity_eq_over {q l : Int} (h1 : 0 < q) (h2 : l ≠ 0) (h3 : l < q) :
    validateQuantity q l = some .overPerOrderLimit := by
  unfold validateQuantity
  rw [if_neg (by omega), if_pos ⟨h2, h3⟩]

/-- `validateQuantity` never produces the insufficient-inventory
error. -/
theorem validateQuantity_ne_insufficient {q l : Int} {e : RErr}
    (h : validateQuantity q l = some e) : e ≠ RErr.insufficientInventory := by
  unfold validateQuantity at h
  split at h
  · cases Option.some_inj.mp h
    simp
  · split at h
    · cases Option.some_inj.mp h
      simp
    · simp at h


/-- When the availability check fails, the attempt rejects with the
non-retryable insufficient-inventory error, writing nothing and leaving
the shared `workingCart` unmutated. -/
theorem reserveAttempt_insufficient (env : ReserveEnv) (T : Ticket) (i : Nat)
    (st : Store) (wc : Option Cart)
    (h : T.qtyTotal - T.qtySold -
          holdForAvailability (st.holds (ticketHoldKey env.ticketId)) < env.quantity) :
    reserveAttempt env T i (st, wc) = ((st, wc), .error .insufficientInventory) := by
  unfold reserveAttempt
  dsimp only
  rw [if_pos h]

/-- When the availability check passes, any error of the attempt leaves
the redis store untouched (only the in-memory `workingCart` may have
been mutated) and is not the insufficient-inventory error. -/
theorem reserveAttempt_not_insufficient (env : ReserveEnv) (T : Ticket) (i : Nat)
    (st : Store) (wc : Option Cart)
    (h : ¬ (T.qtyTotal - T.qtySold -
          holdForAvailability (st.holds (ticketHoldKey env.ticketId)) < env.quantity)) :
    ∀ e, (reserveAttempt env T i (st, wc)).2 = .error e →
      ((reserveAttempt env T i (st, wc)).1).1 = st ∧ e ≠ RErr.insufficientInventory := by
  intro e he
  unfold reserveAttempt at he ⊢
  dsimp only at he ⊢
  rw [if_neg h] at he ⊢
  split
  case h_1 e' heq =>
    simp only [heq] at he
    obtain rfl : e' = e := Except.error.inj he
    exact ⟨rfl, validateQuantity_ne_insufficient heq⟩
  case h_2 heq =>
    simp only [heq] at he
    split
    case isTrue hc =>
      simp only [hc] at he
      obtain rfl : RErr.conflict = e := Except.error.inj he
      exact ⟨rfl, by simp⟩
    case isFalse hc =>
      simp [hc] at he

/-- The cart a successful fresh (no pre-existing cart) reservation
builds and persists. -/
def freshCartFor (env : ReserveEnv) (T : Ticket) : Cart :=
  { cartId := env.freshCartId
    userId := env.userId
    eventId := T.eventId
    currency := T.currency
    items := [(T.id, buildCartItem T env.quantity (env.now + HOLD_SECONDS * 1000) T.id)] }

/-- A fresh-cart attempt that passes availability and validation and
meets no conflict applies `INCRBY` and the cart `SET` atomically and
succeeds. -/
theorem reserveAttempt_ok (env : ReserveEnv) (T : Ticket) (i : Nat) (st : Store)
    (havail : ¬ (T.qtyTotal - T.qtySold -
        holdForAvailability (st.holds (ticketHoldKey env.ticketId)) < env.quantity))
    (hval : validateQuantity env.quantity T.perOrderLimit = none)
    (hconf : env.conflictAt i = false) :
    reserveAttempt env T i (st, none) =
      ((setCartVal (incrbyHold st (ticketHoldKey env.ticketId) env.quantity)
          (cartKey env.freshCartId) (some (freshCartFor env T)), none),
       .ok { cartId := env.freshCartId, cart := freshCartFor env T }) := by
  unfold reserveAttempt
  dsimp only
  rw [if_neg havail]
  simp only [lookupItem, hval, hconf]
  rfl

/-- A fresh-cart attempt that passes availability and validation but is
rejected at `EXEC` fails with the retryable conflict error; nothing
persists (the fresh `updatedCart` was local to the attempt). -/
theorem reserveAttempt_conflict (env : ReserveEnv) (T : Ticket) (i : Nat) (st : Store)
    (havail : ¬ (T.qtyTotal - T.qtySold -
        holdForAvailability (st.holds (ticketHoldKey env.ticketId)) < env.quantity))
    (hval : validateQuantity env.quantity T.perOrderLimit = none)
    (hconf : env.conflictAt i = true) :
    reserveAttempt env T i (st, none) = ((st, none), .error .conflict) := by
  unfold reserveAttempt
  dsimp only
  rw [if_neg havail]
  simp only [lookupItem, hval, hconf]
  rfl

/-- The shared `workingCart` after the in-place merge
`updatedCart.items[ticketIdString] = buildCartItem(...)` of the
requested quantity into the existing line `it`. -/
def mergedCartFor (env : ReserveEnv) (T : Ticket) (c : Cart) (it : CartItem) : Cart :=
  let item := buildCartItem T (it.quantity + env.quantity)
    (env.now + HOLD_SECONDS * 1000) T.id
  { c with items := setItem c.items T.id item }

/-- A merging attempt whose merged line total fails the per-order-limit
validation rejects with the validation error before the mutation point:
store and `workingCart` are both unchanged. -/
theorem reserveAttempt_merged_over (env : ReserveEnv) (T : Ticket) (c : Cart)
    (i : Nat) (st : Store) (it : CartItem)
    (havail : ¬ (T.qtyTotal - T.qtySold -
        holdForAvailability (st.holds (ticketHoldKey env.ticketId)) < env.quantity))
    (hit : lookupItem c.items T.id = some it)
    (hval2 : validateQuantity (it.quantity + env.quantity) T.perOrderLimit
      = some .overPerOrderLimit) :
    reserveAttempt env T i (st, some c) = ((st, some c), .error .overPerOrderLimit) := by
  unfold reserveAttempt
  dsimp only
  rw [if_neg havail]
  simp only [hit, hval2]

/-- A merging attempt that passes availability and validation but is
rejected at `EXEC`: the conflict error is retryable, the store is
untouched, but the shared `workingCart` now carries the merged line —
the in-place mutation happened before `EXEC` and survives into the
retry. -/
theorem reserveAttempt_merged_conflict (env : ReserveEnv) (T : Ticket) (c : Cart)
    (i : Nat) (st : Store) (it : CartItem)
    (havail : ¬ (T.qtyTotal - T.qtySold -
        holdForAvailability (st.holds (ticketHoldKey env.ticketId)) < env.quantity))
    (hit : lookupItem c.items T.id = some it)
    (hval2 : validateQuantity (it.quantity + env.quantity) T.perOrderLimit = none)
    (hconf : env.conflictAt i = true) :
    reserveAttempt env T i (st, some c)
      = ((st, some (mergedCartFor env T c it)), .error .conflict) := by
  unfold reserveAttempt
  dsimp only
  rw [if_neg havail]
  simp only [hit, hval2, hconf, if_true]
  rfl

/-- `lookupItem` finds the entry `setItem` just wrote. -/
theorem lookupItem_setItem_self (items : List (String × CartItem)) (k : String)
    (v : CartItem) : lookupItem (setItem items k v) k = some v := by
  induction items with
  | nil => simp [setItem, lookupItem]
  | cons p rest ih =>
    obtain ⟨k', v'⟩ := p
    unfold setItem
    by_cases h : k' = k
    · rw [if_pos h]
      unfold lookupItem
      rw [if_pos rfl]
    · rw [if_neg h]
      unfold lookupItem
      rw [if_neg h]
      exact ih

/-- `retryable === false` holds exactly for the insufficient-inventory
error. -/
theorem retryableIsFalse_iff (e : RErr) :
    e.retryableIsFalse = true ↔ e = RErr.insufficientInventory := by
  cases e <;> simp [RErr.retryableIsFalse]

/-- A terminal (`retryable: false`) failure of the first attempt is the
loop's result: no further attempt runs. -/
theorem withRetryGo_terminal {σ α : Type} (fn : Nat → σ → σ × Except RErr α)
    (i fuel : Nat) (last : Option RErr) (s s' : σ) (e : RErr)
    (hfn : fn i s = (s', .error e)) (he : e.retryableIsFalse = true) :
    withRetryGo fn i (fuel + 1) last s = (s', .error e) := by
  unfold withRetryGo
  rw [hfn]
  dsimp only
  rw [he]
  simp

/-- A successful attempt ends the loop with its result. -/
theorem withRetryGo_ok {σ α : Type} (fn : Nat → σ → σ × Except RErr α)
    (i fuel : Nat) (last : Option RErr) (s s' : σ) (a : α)
    (h : fn i s = (s', .ok a)) :
    withRetryGo fn i (fuel + 1) last s = (s', .ok a) := by
  unfold withRetryGo
  rw [h]

/-- A conflict-rejected attempt leaves the loop to try again at the
next index, from the state the attempt left behind, with the conflict
error as `lastError`. -/
theorem withRetryGo_step_conflict {σ α : Type} (fn : Nat → σ → σ × Except RErr α)
    (i fuel : Nat) (last : Option RErr) (s s' : σ)
    (h : fn i s = (s', .error .conflict)) :
    withRetryGo fn i (fuel + 1) last s = withRetryGo fn (i + 1) fuel (some .conflict) s' := by
  conv_lhs => unfold withRetryGo
  rw [h]
  dsimp only
  rw [show RErr.conflict.retryableIsFalse = false from rfl]
  simp only [Bool.false_eq_true, if_false]

/-- If every attempt from the current state fails with one and the same
retryable error without moving the state, the loop exhausts its budget
and reports that error. -/
theorem withRetryGo_const_error {σ α : Type} (fn : Nat → σ → σ × Except RErr α)
    (s : σ) (e : RErr) (he : e.retryableIsFalse = false)
    (hfn : ∀ j, fn j s = (s, .error e)) :
    ∀ fuel : Nat, 0 < fuel → ∀ (i : Nat) (last : Option RErr),
      withRetryGo fn i fuel last s = (s, .error e) := by
  intro fuel
  induction fuel with
  | zero => omega
  | succ f ih =>
    intro _ i last
    unfold withRetryGo
    rw [hfn i]
    dsimp only
    rw [he]
    simp only [Bool.false_eq_true, if_false]
    cases f with
    | zero => simp [withRetryGo]
    | succ f' => exact ih (by omega) (i + 1) (some e)

/-- `withRetry` at the source's budget of 3. -/
theorem withRetry_const_error {σ α : Type} (fn : Nat → σ → σ × Except RErr α)
    (s : σ) (e : RErr) (he : e.retryableIsFalse = false)
    (hfn : ∀ j, fn j s = (s, .error e)) :
    withRetry fn 3 s = (s, .error e) :=
  withRetryGo_const_error fn s e he hfn 3 (by omega) 0 none

/-- If every attempt taken from a state satisfying `P` fails into a
state still satisfying `P` and never with the insufficient-inventory
error, the loop never reports insufficient inventory from a `P`
state. -/
theorem withRetryGo_ne_insufficient {σ α : Type} (fn : Nat → σ → σ × Except RErr α)
    (P : σ → Prop)
    (hfn : ∀ j s, P s → ∀ e, (fn j s).2 = .error e →
      P (fn j s).1 ∧ e ≠ RErr.insufficientInventory) :
    ∀ (fuel i : Nat) (last : Option RErr) (s : σ), P s →
      (∀ e, last = some e → e ≠ RErr.insufficientInventory) →
      (withRetryGo fn i fuel last s).2 ≠ .error RErr.insufficientInventory := by
  intro fuel
  induction fuel with
  | zero =>
    intro i last s hP hlast
    cases last with
    | none => simp [withRetryGo]
    | some e =>
      have he := hlast e rfl
      simp [withRetryGo]
      exact he
  | succ f ih =>
    intro i last s hP hlast
    unfold withRetryGo
    cases hm : fn i s with
    | mk s' r =>
      cases r with
      | ok a => simp
      | error e =>
        obtain ⟨hP', hne⟩ := hfn i s hP e (by rw [hm])
        have hs' : P s' := by
          rw [hm] at hP'
          exact hP'
        simp only
        split
        case isTrue ht =>
          simp
          exact hne
        case isFalse hf =>
          exact ih (i + 1) (some e) s' hs'
            (fun e' he' => (Option.some_inj.mp he') ▸ hne)

/-- With the ticket found, the request quantity valid and no cart id
supplied, `reserveTickets` is the retry loop over the attempt, started
with no captured cart; the caller sees the loop's final store and
outcome. -/
theorem reserveTickets_run_none (env : ReserveEnv) (st : Store) (T : Ticket)
    (hT : env.tickets env.ticketId = some T)
    (hval : validateQuantity env.quantity T.perOrderLimit = none)
    (hcid : env.cartId = none) :
    reserveTickets env st
      = ((withRetry (reserveAttempt env T) 3 (st, none)).1.1,
         (withRetry (reserveAttempt env T) 3 (st, none)).2) := by
  simp only [reserveTickets, hT, hval, hcid]

/-- As `reserveTickets_run_none`, but with a supplied cart id whose key
is absent from the store. -/
theorem reserveTickets_run_missing (env : ReserveEnv) (st : Store) (T : Ticket)
    (cid : String) (hT : env.tickets env.ticketId = some T)
    (hval : validateQuantity env.quantity T.perOrderLimit = none)
    (hcid : env.cartId = some cid) (hc : st.carts (cartKey cid) = none) :
    reserveTickets env st
      = ((withRetry (reserveAttempt env T) 3 (st, none)).1.1,
         (withRetry (reserveAttempt env T) 3 (st, none)).2) := by
  simp only [reserveTickets, hT, hval, hcid, hc]

/-- With a supplied cart that belongs to the user and references the
ticket's event, `reserveTickets` is the retry loop over the attempt,
started with that cart captured as the shared `workingCart`. -/
theorem reserveTickets_run_some (env : ReserveEnv) (st : Store) (T : Ticket)
    (cid : String) (c : Cart) (hT : env.tickets env.ticketId = some T)
    (hval : validateQuantity env.quantity T.perOrderLimit = none)
    (hcid : env.cartId = some cid) (hc : st.carts (cartKey cid) = some c)
    (hu : c.userId = env.userId) (he : c.eventId = T.eventId) :
    reserveTickets env st
      = ((withRetry (reserveAttempt env T) 3 (st, some c)).1.1,
         (withRetry (reserveAttempt env T) 3 (st, some c)).2) := by
  simp only [reserveTickets, hT, hval, hcid, hc]
  rw [if_neg (by simp [hu]), if_neg (by simp [he])]

/-- Inside the retry loop, the insufficient-inventory failure occurs
exactly when the requested quantity exceeds derived availability, and
then it is the immediate overall result with the whole state (store and
captured cart) untouched. -/
theorem withRetry_insufficient_iff (env : ReserveEnv) (T : Ticket) (st : Store)
    (wc : Option Cart) :
    ((withRetry (reserveAttempt env T) 3 (st, wc)).2
        = .error RErr.insufficientInventory ↔
      T.qtyTotal - T.qtySold -
        holdForAvailability (st.holds (ticketHoldKey env.ticketId)) < env.quantity) ∧
    (T.qtyTotal - T.qtySold -
        holdForAvailability (st.holds (ticketHoldKey env.ticketId)) < env.quantity →
      withRetry (reserveAttempt env T) 3 (st, wc)
        = ((st, wc), .error .insufficientInventory)) := by
  by_cases hav : T.qtyTotal - T.qtySold -
      holdForAvailability (st.holds (ticketHoldKey env.ticketId)) < env.quantity
  · have heq : withRetry (reserveAttempt env T) 3 (st, wc)
        = ((st, wc), .error .insufficientInventory) :=
      withRetryGo_terminal (reserveAttempt env T) 0 2 none (st, wc) (st, wc)
        .insufficientInventory (reserveAttempt_insufficient env T 0 st wc hav) rfl
    refine ⟨⟨fun _ => hav, fun _ => ?_⟩, fun _ => heq⟩
    rw [heq]
  · have hne := withRetryGo_ne_insufficient (reserveAttempt env T)
      (fun s => s.1 = st)
      (fun j s hs e he => by
        obtain ⟨st', wc'⟩ := s
        have hs' : st' = st := hs
        rw [hs'] at he ⊢
        exact reserveAttempt_not_insufficient env T j st wc' hav e he)
      3 0 none (st, wc) rfl (by simp)
    exact ⟨⟨fun hcon => absurd hcon hne, fun hlt => absurd hlt hav⟩,
           fun hlt => absurd hlt hav⟩

/-- An empty hold store. -/
def emptyStore : Store := { holds := fun _ => none, carts := fun _ => none }

/-- `exTicket` with 8 of 10 units already sold (so 2 are available). -/
def exTicketC1 : Ticket := { exTicket with qtySold := 8 }

/-- A reserve request for 5 units of `exTicketC1` (over the per-order
limit of 4, and over the availability of 2), with no cart and no
concurrent conflicts. -/
def envC1 : ReserveEnv :=
  { userId := "u1"
    ticketId := "t1"
    quantity := 5
    cartId := none
    tickets := fun t => if t = "t1" then some exTicketC1 else none
    freshCartId := "c1"
    now := 0
    conflictAt := fun _ => false }

/-- Counterexample to C1: a positive integer quantity (5) on an
existing ticket with `available = 10 − 8 − 0 = 2 < 5`, yet the call
fails with the per-order-limit validation error thrown before the
availability computation — not with `InsufficientInventory`. -/
theorem c1_counterexample :
    exTicketC1.qtyTotal - exTicketC1.qtySold -
        holdForAvailability (emptyStore.holds (ticketHoldKey "t1")) < envC1.quantity ∧
    (reserveTickets envC1 emptyStore).2 = .error RErr.overPerOrderLimit ∧
    (reserveTickets envC1 emptyStore).2 ≠ .error RErr.insufficientInventory :=
  ⟨by decide, by rfl, by decide⟩

/-- C1 (amended): for every reserve call with a positive integer
quantity on an existing ticket which passes the per-order-limit
validation and whose supplied cart (if any) passes the ownership and
same-event checks, the call fails with the non-retryable
`InsufficientInventory` error exactly when
`quantity > qtyTotal − qtySold − currentHoldCounter` (absent or
unparsable counter counted as 0), and on such failure the store is
returned untouched: no hold counter and no cart key is written. -/
theorem c1_amended_insufficient_iff (env : ReserveEnv) (st : Store) (T : Ticket)
    (hT : env.tickets env.ticketId = some T)
    (hq : 0 < env.quantity)
    (hlim : env.quantity ≤ T.perOrderLimit)
    (hcart : ∀ cid c, env.cartId = some cid → st.carts (cartKey cid) = some c →
        c.userId = env.userId ∧ c.eventId = T.eventId) :
    ((reserveTickets env st).2 = .error RErr.insufficientInventory ↔
      T.qtyTotal - T.qtySold -
        holdForAvailability (st.holds (ticketHoldKey env.ticketId)) < env.quantity) ∧
    (T.qtyTotal - T.qtySold -
        holdForAvailability (st.holds (ticketHoldKey env.ticketId)) < env.quantity →
      reserveTickets env st = (st, .error .insufficientInventory)) := by
  have hval := validateQuantity_eq_none hq hlim
  have main : ∀ wc : Option Cart,
      reserveTickets env st
        = ((withRetry (reserveAttempt env T) 3 (st, wc)).1.1,
           (withRetry (reserveAttempt env T) 3 (st, wc)).2) →
      ((reserveTickets env st).2 = .error RErr.insufficientInventory ↔
        T.qtyTotal - T.qtySold -
          holdForAvailability (st.holds (ticketHoldKey env.ticketId)) < env.quantity) ∧
      (T.qtyTotal - T.qtySold -
          holdForAvailability (st.holds (ticketHoldKey env.ticketId)) < env.quantity →
        reserveTickets env st = (st, .error .insufficientInventory)) := by
    intro wc hrun
    have hiff := withRetry_insufficient_iff env T st wc
    constructor
    · rw [hrun]
      exact hiff.1
    · intro hlt
      rw [hrun, hiff.2 hlt]
  cases hcid : env.cartId with
  | none => exact main none (reserveTickets_run_none env st T hT hval hcid)
  | some cid =>
    cases hc : st.carts (cartKey cid) with
    | none => exact main none (reserveTickets_run_missing env st T cid hT hval hcid hc)
    | some c =>
      obtain ⟨hu, he⟩ := hcart cid c hcid hc
      exact main (some c) (reserveTickets_run_some env st T cid c hT hval hcid hc hu he)

/-- Witness for C1 (amended): requesting exactly the 2 available units
does not produce the insufficient-inventory error. -/
theorem c1_amended_witness :
    ¬ ((reserveTickets { envC1 with quantity := 2 } emptyStore).2 =
        .error RErr.insufficientInventory) :=
  fun h =>
    absurd ((c1_amended_insufficient_iff { envC1 with quantity := 2 } emptyStore
        exTicketC1 (by rfl) (by decide) (by decide)
        (fun cid c hcid _ => Option.noConfusion hcid)).1.mp h)
      (by decide)

/-- A cart line holding 2 units of `exTicket`. -/
def exItem2 : CartItem := buildCartItem exTicket 2 600000 "t1"

/-- A cart for user `"u1"` and event `"e1"` holding `exItem2`. -/
def exCart2 : Cart :=
  { cartId := "c1"
    userId := "u1"
    eventId := "e1"
    currency := "USD"
    items := [("t1", exItem2)] }

/-- A store holding `exCart2` and no hold counters. -/
def exStoreC4 : Store :=
  { holds := fun _ => none
    carts := fun k => if k = cartKey "c1" then some exCart2 else none }

/-- A reserve request for 2 more units of `exTicket` (availability 10),
merging into the cart line of 2: merged total 4, exactly the per-order
limit. -/
def envC4 : ReserveEnv :=
  { userId := "u1"
    ticketId := "t1"
    quantity := 2
    cartId := some "c1"
    tickets := fun t => if t = "t1" then some exTicket else none
    freshCartId := "c9"
    now := 0
    conflictAt := fun _ => false }

/-- Counterexample to C4: conflict-free, the merged reserve succeeds
(line 2 + 2 = 4 ≤ limit 4).  A single `EXEC` conflict at the first
attempt is not retried transparently: the in-place mutation of the
shared `workingCart` survives the rejected apply, the retry merges onto
the already-bumped line (4 + 2 = 6 > 4) and the call fails with the
per-order-limit validation error — which is also the error surfaced
when the 3-attempt budget runs out, not `Conflict`. -/
theorem c4_counterexample :
    (reserveTickets envC4 exStoreC4).2
      = .ok { cartId := "c1", cart := mergedCartFor envC4 exTicket exCart2 exItem2 } ∧
    (reserveTickets { envC4 with conflictAt := fun i => decide (i = 0) } exStoreC4).2
      = .error RErr.overPerOrderLimit ∧
    (reserveTickets { envC4 with conflictAt := fun i => decide (i = 0) } exStoreC4).2
      ≠ (reserveTickets envC4 exStoreC4).2 ∧
    (reserveTickets { envC4 with conflictAt := fun i => decide (i = 0) } exStoreC4).2
      ≠ .error RErr.conflict :=
  ⟨by rfl, by rfl, by decide, by decide⟩

/-- With pre-checks passing, a call whose quantity exceeds availability
resolves to the terminal insufficient-inventory error with the store
untouched. -/
theorem reserveTickets_insufficient (env : ReserveEnv) (st : Store) (T : Ticket)
    (hT : env.tickets env.ticketId = some T)
    (hq : 0 < env.quantity) (hlim : env.quantity ≤ T.perOrderLimit)
    (hcart : ∀ cid c, env.cartId = some cid → st.carts (cartKey cid) = some c →
        c.userId = env.userId ∧ c.eventId = T.eventId)
    (hav : T.qtyTotal - T.qtySold -
        holdForAvailability (st.holds (ticketHoldKey env.ticketId)) < env.quantity) :
    reserveTickets env st = (st, .error .insufficientInventory) := by
  have hval := validateQuantity_eq_none hq hlim
  have main : ∀ wc : Option Cart,
      reserveTickets env st
        = ((withRetry (reserveAttempt env T) 3 (st, wc)).1.1,
           (withRetry (reserveAttempt env T) 3 (st, wc)).2) →
      reserveTickets env st = (st, .error .insufficientInventory) := by
    intro wc hrun
    rw [hrun, (withRetry_insufficient_iff env T st wc).2 hav]
  cases hcid : env.cartId with
  | none => exact main none (reserveTickets_run_none env st T hT hval hcid)
  | some cid =>
    cases hc : st.carts (cartKey cid) with
    | none => exact main none (reserveTickets_run_missing env st T cid hT hval hcid hc)
    | some c =>
      obtain ⟨hu, he⟩ := hcart cid c hcid hc
      exact main (some c) (reserveTickets_run_some env st T cid c hT hval hcid hc hu he)

/-- C4 (amended): a rejection due to insufficient inventory is terminal
and is the immediate overall result, whatever the conflict oracle says
and with nothing written.  An `EXEC` rejection is retried from the read
step, up to the fixed budget of 3 attempts.  For fresh-cart reserves
(no `cartId`) the retry is transparent — conflicts at the first two
attempts leave the outcome identical to a conflict-free call — and
conflicts at all 3 attempts exhaust the budget and surface the
`Conflict` error.  For reserves merging into an existing cart line the
retry is *not* transparent: the in-place mutation of the shared
`workingCart` survives the rejected `EXEC`, so the retry compounds the
merged line, and a single conflict can turn a within-limit merge into a
per-order-limit validation failure that is then surfaced when the
budget runs out (in place of the `Conflict` error). -/
theorem c4_amended_retry_semantics (env : ReserveEnv) (st : Store) (T : Ticket)
    (hT : env.tickets env.ticketId = some T)
    (hq : 0 < env.quantity)
    (hlim : env.quantity ≤ T.perOrderLimit)
    (hcart : ∀ cid c, env.cartId = some cid → st.carts (cartKey cid) = some c →
        c.userId = env.userId ∧ c.eventId = T.eventId) :
    (T.qtyTotal - T.qtySold -
        holdForAvailability (st.holds (ticketHoldKey env.ticketId)) < env.quantity →
      ∀ cf : Nat → Bool, reserveTickets { env with conflictAt := cf } st
        = (st, .error .insufficientInventory)) ∧
    (env.cartId = none →
      reserveTickets { env with conflictAt := fun i => decide (i < 2) } st
        = reserveTickets { env with conflictAt := fun _ => false } st) ∧
    (env.cartId = none →
      ¬ (T.qtyTotal - T.qtySold -
          holdForAvailability (st.holds (ticketHoldKey env.ticketId)) < env.quantity) →
      reserveTickets { env with conflictAt := fun _ => true } st
        = (st, .error .conflict)) ∧
    (∀ cid c it, env.cartId = some cid → st.carts (cartKey cid) = some c →
      lookupItem c.items T.id = some it → 0 < it.quantity →
      it.quantity + env.quantity ≤ T.perOrderLimit → T.perOrderLimit ≠ 0 →
      T.perOrderLimit < it.quantity + 2 * env.quantity →
      ¬ (T.qtyTotal - T.qtySold -
          holdForAvailability (st.holds (ticketHoldKey env.ticketId)) < env.quantity) →
      reserveTickets { env with conflictAt := fun i => decide (i = 0) } st
        = (st, .error .overPerOrderLimit)) := by
  have hval := validateQuantity_eq_none hq hlim
  refine ⟨?_, ?_, ?_, ?_⟩
  · intro hav cf
    exact reserveTickets_insufficient { env with conflictAt := cf } st T hT hq hlim
      hcart hav
  · intro hcid
    by_cases hav : T.qtyTotal - T.qtySold -
        holdForAvailability (st.holds (ticketHoldKey env.ticketId)) < env.quantity
    · rw [reserveTickets_run_none { env with conflictAt := fun i => decide (i < 2) }
            st T hT hval hcid,
          reserveTickets_run_none { env with conflictAt := fun _ => false }
            st T hT hval hcid,
          (withRetry_insufficient_iff { env with conflictAt := fun i => decide (i < 2) }
            T st none).2 hav,
          (withRetry_insufficient_iff { env with conflictAt := fun _ => false }
            T st none).2 hav]
    · have h0 := reserveAttempt_conflict { env with conflictAt := fun i => decide (i < 2) }
        T 0 st hav hval rfl
      have h1 := reserveAttempt_conflict { env with conflictAt := fun i => decide (i < 2) }
        T 1 st hav hval rfl
      have h2 := reserveAttempt_ok { env with conflictAt := fun i => decide (i < 2) }
        T 2 st hav hval rfl
      have hf0 := reserveAttempt_ok { env with conflictAt := fun _ => false }
        T 0 st hav hval rfl
      rw [reserveTickets_run_none { env with conflictAt := fun i => decide (i < 2) }
            st T hT hval hcid,
          reserveTickets_run_none { env with conflictAt := fun _ => false }
            st T hT hval hcid]
      unfold withRetry
      rw [withRetryGo_step_conflict _ 0 2 none (st, none) (st, none) h0,
          withRetryGo_step_conflict _ 1 1 (some .conflict) (st, none) (st, none) h1,
          withRetryGo_ok _ 2 0 (some .conflict) (st, none) _ _ h2,
          withRetryGo_ok _ 0 2 none (st, none) _ _ hf0]
      rfl
  · intro hcid hav
    rw [reserveTickets_run_none { env with conflictAt := fun _ => true } st T hT hval hcid,
        withRetry_const_error (reserveAttempt { env with conflictAt := fun _ => true } T)
          (st, none) .conflict rfl
          (fun j => reserveAttempt_conflict { env with conflictAt := fun _ => true }
            T j st hav hval rfl)]
  · intro cid c it hcid hc hit hitq hle h0lim hcomp hav
    obtain ⟨hu, he⟩ := hcart cid c hcid hc
    have hvalM : validateQuantity (it.quantity + env.quantity) T.perOrderLimit = none :=
      validateQuantity_eq_none (by omega) hle
    have h0 := reserveAttempt_merged_conflict
      { env with conflictAt := fun i => decide (i = 0) } T c 0 st it hav hit hvalM rfl
    have hconst : ∀ j, reserveAttempt { env with conflictAt := fun i => decide (i = 0) } T j
        (st, some (mergedCartFor { env with conflictAt := fun i => decide (i = 0) } T c it))
        = ((st, some (mergedCartFor { env with conflictAt := fun i => decide (i = 0) } T c it)),
           .error .overPerOrderLimit) := by
      intro j
      exact reserveAttempt_merged_over { env with conflictAt := fun i => decide (i = 0) }
        T (mergedCartFor { env with conflictAt := fun i => decide (i = 0) } T c it) j st
        (buildCartItem T (it.quantity + env.quantity) (env.now + HOLD_SECONDS * 1000) T.id)
        hav (lookupItem_setItem_self c.items T.id _)
        (validateQuantity_eq_over (by simp only [buildCartItem]; omega) h0lim
          (by simp only [buildCartItem]; omega))
    rw [reserveTickets_run_some { env with conflictAt := fun i => decide (i = 0) }
          st T cid c hT hval hcid hc hu he]
    unfold withRetry
    rw [withRetryGo_step_conflict _ 0 2 none (st, some c) _ h0,
        withRetryGo_const_error _ _ .overPerOrderLimit rfl hconst 2 (by omega) 1
          (some .conflict)]

/-- Witness for C4 (amended): with 2 units requested of the 2 available
and no existing cart, conflicts at the first two attempts are invisible
to the caller. -/
theorem c4_amended_witness :
    reserveTickets { envC1 with quantity := 2, conflictAt := fun i => decide (i < 2) }
        emptyStore
      = reserveTickets { envC1 with quantity := 2, conflictAt := fun _ => false }
        emptyStore :=
  (c4_amended_retry_semantics { envC1 with quantity := 2 } emptyStore exTicketC1
    (by rfl) (by decide) (by decide)
    (fun cid c hcid _ => Option.noConfusion hcid)).2.1 (by rfl)

/-- A cart line holding 3 units of `exTicket`. -/
def exItem3 : CartItem := buildCartItem exTicket 3 600000 "t1"

/-- A cart for user `"u1"` and event `"e1"` holding `exItem3`. -/
def exCart3 : Cart :=
  { cartId := "c1"
    userId := "u1"
    eventId := "e1"
    currency := "USD"
    items := [("t1", exItem3)] }

/-- A store holding `exCart3` and no hold counters. -/
def exStoreC7 : Store :=
  { holds := fun _ => none
    carts := fun k => if k = cartKey "c1" then some exCart3 else none }

/-- A reserve request for 2 more units of a ticket with 1 unit of
availability left, merging into the cart line of 3 (merged total 5 over
the per-order limit of 4). -/
def envC7 : ReserveEnv :=
  { userId := "u1"
    ticketId := "t1"
    quantity := 2
    cartId := some "c1"
    tickets := fun t => if t = "t1" then some { exTicket with qtySold := 9 } else none
    freshCartId := "c9"
    now := 0
    conflictAt := fun _ => false }

/-- Counterexample to C7: the merged line total (3 + 2 = 5) exceeds the
per-order limit of 4, yet the call fails with the insufficient-inventory
error (the availability check, `available = 10 − 9 − 0 = 1 < 2`, runs
before the merged-limit validation), not with a `ValidationError`. -/
theorem c7_counterexample :
    lookupItem exCart3.items "t1" = some exItem3 ∧
    ({ exTicket with qtySold := 9 } : Ticket).perOrderLimit
      < exItem3.quantity + envC7.quantity ∧
    (reserveTickets envC7 exStoreC7).2 = .error RErr.insufficientInventory ∧
    (reserveTickets envC7 exStoreC7).2 ≠ .error RErr.overPerOrderLimit :=
  ⟨by rfl, by decide, by rfl, by decide⟩

/-- C7 (amended): a per-order-limit violation — of the requested
quantity alone, or of the merged line total when the availability check
does not fire first — fails with the limit `ValidationError` and the
store is returned untouched (no hold counter or cart key written); when
the merged case is pre-empted by insufficient availability the call
instead fails with `InsufficientInventory`, still with no store write
(see the C1 theorem). -/
theorem c7_amended_limit_check_before_writes (env : ReserveEnv) (st : Store)
    (T : Ticket) (hT : env.tickets env.ticketId = some T) (hq : 0 < env.quantity) :
    (T.perOrderLimit ≠ 0 → T.perOrderLimit < env.quantity →
      reserveTickets env st = (st, .error .overPerOrderLimit)) ∧
    (∀ cid c it, env.quantity ≤ T.perOrderLimit → env.cartId = some cid →
      st.carts (cartKey cid) = some c → c.userId = env.userId →
      c.eventId = T.eventId → lookupItem c.items T.id = some it →
      0 < it.quantity → T.perOrderLimit ≠ 0 →
      T.perOrderLimit < it.quantity + env.quantity →
      ¬ (T.qtyTotal - T.qtySold -
          holdForAvailability (st.holds (ticketHoldKey env.ticketId)) < env.quantity) →
      reserveTickets env st = (st, .error .overPerOrderLimit)) := by
  constructor
  · intro h0 hlt
    simp only [reserveTickets, hT, validateQuantity_eq_over hq h0 hlt]
  · intro cid c it hle hcid hc hu he hit hitq h0 hmerged havail
    rw [reserveTickets_run_some env st T cid c hT (validateQuantity_eq_none hq hle)
          hcid hc hu he,
        withRetry_const_error (reserveAttempt env T) (st, some c) .overPerOrderLimit rfl
          (fun j => reserveAttempt_merged_over env T c j st it havail hit
            (validateQuantity_eq_over (by omega) h0 hmerged))]

/-- Witness for C7 (amended): requesting 5 units against a per-order
limit of 4 fails with the validation error, store untouched. -/
theorem c7_witness :
    reserveTickets envC1 emptyStore = (emptyStore, .error RErr.overPerOrderLimit) :=
  (c7_amended_limit_check_before_writes envC1 emptyStore exTicketC1
    (by rfl) (by decide)).1 (by decide) (by decide)

/-- Releasing a line's full quantity deletes the ticket's hold-counter
key when the counter held exactly that quantity. -/
theorem releaseCartItem_full_release (cartId tid : String) (q now : Int)
    (c : Cart) (it : CartItem) (st : Store)
    (hc : st.carts (cartKey cartId) = some c)
    (hit : lookupItem c.items tid = some it)
    (hq : it.quantity = q) (hq0 : 0 < q)
    (hhold : st.holds (ticketHoldKey tid) = some (.int q)) :
    ((releaseCartItem cartId tid (some q) now st).1).holds (ticketHoldKey tid) = none := by
  unfold releaseCartItem
  rw [hc]
  dsimp only
  rw [hit]
  dsimp only
  rw [hq, min_self]
  unfold releaseAmounts
  rw [if_pos hq0]
  have hd : decrbyHold st (ticketHoldKey tid) q
      = some (q - q, setHoldVal st (ticketHoldKey tid) (some (.int (q - q)))) := by
    unfold decrbyHold
    rw [hhold]
  rw [hd]
  dsimp only
  rw [if_pos (by omega : q - q ≤ 0)]
  rw [releaseFinish_holds]
  simp [setHoldVal]

/-- C8: on a ticket whose hold counter is initially absent, a
successful fresh reserve of `q` followed by a release of `q` for that
ticket restores the counter to its pre-reserve value: the counter key
is absent again. -/
theorem c8_reserve_release_round_trip (env : ReserveEnv) (st : Store) (T : Ticket)
    (now2 : Int)
    (hT : env.tickets env.ticketId = some T)
    (hid : T.id = env.ticketId)
    (hq : 0 < env.quantity)
    (hlim : env.quantity ≤ T.perOrderLimit)
    (hcid : env.cartId = none)
    (hhold : st.holds (ticketHoldKey env.ticketId) = none)
    (havail : env.quantity ≤ T.qtyTotal - T.qtySold)
    (hconf : env.conflictAt 0 = false) :
    (reserveTickets env st).2
      = .ok { cartId := env.freshCartId, cart := freshCartFor env T } ∧
    ((releaseCartItem env.freshCartId env.ticketId (some env.quantity) now2
        (reserveTickets env st).1).1).holds (ticketHoldKey env.ticketId)
      = st.holds (ticketHoldKey env.ticketId) ∧
    st.holds (ticketHoldKey env.ticketId) = none := by
  have hval := validateQuantity_eq_none hq hlim
  have havail' : ¬ (T.qtyTotal - T.qtySold -
      holdForAvailability (st.holds (ticketHoldKey env.ticketId)) < env.quantity) := by
    rw [hhold]
    simp only [holdForAvailability, parseIntHold, Option.getD_some]
    omega
  have hres : reserveTickets env st =
      (setCartVal (incrbyHold st (ticketHoldKey env.ticketId) env.quantity)
        (cartKey env.freshCartId) (some (freshCartFor env T)),
       .ok { cartId := env.freshCartId, cart := freshCartFor env T }) := by
    rw [reserveTickets_run_none env st T hT hval hcid]
    have hok := withRetryGo_ok (reserveAttempt env T) 0 2 none (st, none) _ _
      (reserveAttempt_ok env T 0 st havail' hval hconf)
    rw [show withRetry (reserveAttempt env T) 3 (st, none) = _ from hok]
  refine ⟨by rw [hres], ?_, hhold⟩
  rw [hres, hhold]
  exact releaseCartItem_full_release env.freshCartId env.ticketId env.quantity now2
    (freshCartFor env T)
    (buildCartItem T env.quantity (env.now + HOLD_SECONDS * 1000) T.id)
    _
    (by simp [setCartVal])
    (by simp [freshCartFor, lookupItem, hid])
    rfl hq
    (by simp [setCartVal, incrbyHold, hhold, setHoldVal])

/-- Witness for C8 at a concrete fresh reservation of 2 units. -/
theorem c8_witness :
    ((releaseCartItem "c1" "t1" (some 2) 0
        (reserveTickets { envC1 with quantity := 2 } emptyStore).1).1).holds
      (ticketHoldKey "t1") = emptyStore.holds (ticketHoldKey "t1") :=
  (c8_reserve_release_round_trip { envC1 with quantity := 2 } emptyStore exTicketC1 0
    (by rfl) (by rfl) (by decide) (by decide) (by rfl) (by rfl) (by decide) (by rfl)).2.1

/-- A store whose only entry is an unparsable value under `exTicket`'s
hold-counter key. -/
def exStoreCor : Store :=
  { holds := fun k => if k = ticketHoldKey "t1" then some .corrupt else none
    carts := fun _ => none }

/-- C10: a stored hold-counter value that does not parse as an integer
(`parseInt` gives `NaN`) is treated as 0 by the availability
computation, so with a corrupted counter key the operation reports
insufficient inventory exactly as if the counter were absent — the
ticket appears fully available — and a conflict-free reserve of an
in-budget quantity succeeds rather than failing or crashing. -/
theorem c10_corrupt_counter_treated_as_zero (env : ReserveEnv) (st : Store) (T : Ticket)
    (hT : env.tickets env.ticketId = some T)
    (hq : 0 < env.quantity)
    (hlim : env.quantity ≤ T.perOrderLimit)
    (hcid : env.cartId = none)
    (hcor : st.holds (ticketHoldKey env.ticketId) = some .corrupt) :
    holdForAvailability (some .corrupt) = 0 ∧
    ((reserveTickets env st).2 = .error RErr.insufficientInventory ↔
      T.qtyTotal - T.qtySold < env.quantity) ∧
    (env.conflictAt 0 = false → env.quantity ≤ T.qtyTotal - T.qtySold →
      (reserveTickets env st).2
        = .ok { cartId := env.freshCartId, cart := freshCartFor env T }) := by
  have hval := validateQuantity_eq_none hq hlim
  have hzero : holdForAvailability (st.holds (ticketHoldKey env.ticketId)) = 0 := by
    rw [hcor]
    rfl
  refine ⟨rfl, ?_, ?_⟩
  · rw [reserveTickets_run_none env st T hT hval hcid]
    have h2 := (withRetry_insufficient_iff env T st none).1
    rw [hzero] at h2
    simpa using h2
  · intro hconf havail
    have havail' : ¬ (T.qtyTotal - T.qtySold -
        holdForAvailability (st.holds (ticketHoldKey env.ticketId)) < env.quantity) := by
      rw [hzero]
      omega
    rw [reserveTickets_run_none env st T hT hval hcid]
    have hok := withRetryGo_ok (reserveAttempt env T) 0 2 none (st, none) _ _
      (reserveAttempt_ok env T 0 st havail' hval hconf)
    rw [show withRetry (reserveAttempt env T) 3 (st, none) = _ from hok]

/-- Witness for C10: with the corrupted counter, reserving 2 of the 2
available units succeeds. -/
theorem c10_witness :
    (reserveTickets { envC1 with quantity := 2 } exStoreCor).2
      = .ok { cartId := "c1", cart := freshCartFor { envC1 with quantity := 2 } exTicketC1 } :=
  (c10_corrupt_counter_treated_as_zero { envC1 with quantity := 2 } exStoreCor exTicketC1
    (by rfl) (by decide) (by decide) (by rfl) (by rfl)).2.2 (by rfl) (by decide)
